import Mathlib

/-!
# A shallow embedding of the `latexml-runner` worker pool and dispatch engine

This development models the core of the `latexml-runner` repository:

* `src/server.rs` — the `Server` (Worker) type: `LatexmlResponse`, the
  `convert` / `ensure_server` / `rotate_ports` / `call_latexmls` state
  machine, the HTTP/1.0 request formatting and the daemon spawn arguments;
* `src/harness.rs` — the `Harness` dispatcher: batched conversion of a
  stream of records (`convert_txt_file` / `convert_csv_file` via
  `convert_iterator`), the per-task retry loop, and the pool discipline of
  `convert_iterator` tasks and `convert_one`.

External effects (TCP, process spawning, sleeping, JSON decoding by
`serde_json`, the OS answer to a bind probe) are modelled as explicit
environment parameters, and the observable actions of a run are recorded in
an explicit event trace.  The nondeterministic completion order of the
rayon `par_bridge` in `convert_iterator` is modelled by quantifying over an
arbitrary permutation of the position-tagged batch.  Machine integers
(`u8` status codes, `u16` ports, `usize` counters) are modelled as `Nat`;
none of the modelled code paths can overflow them.
-/

/-- The `LatexmlResponse` struct of `src/server.rs`: the typed result
envelope of one conversion (`status_code: u8`, `status`, `result`, `log`). -/
structure LatexmlResponse where
  status_code : Nat
  status : String
  result : String
  log : String
deriving DecidableEq, Repr

/-- `impl Default for LatexmlResponse` in `src/server.rs`: the sentinel
failure record substituted when all retries are exhausted. -/
def LatexmlResponse.default : LatexmlResponse :=
  { status_code := 3
    status := "Default latexml_runner fatal"
    log := "Default latexml_runner fatal"
    result := "" }

/-- `LatexmlResponse::empty` in `src/server.rs`. -/
def LatexmlResponse.empty : LatexmlResponse :=
  { status_code := 0, status := "", log := "", result := "" }

/-- The log sink writes `response.status_code.to_string()` (decimal) for
each record (`src/harness.rs`, `convert_txt_file` / `convert_csv_file`). -/
def statusLine (r : LatexmlResponse) : String := toString r.status_code

/-- The line-reading map of `convert_txt_file` (`src/harness.rs`):
`reader.lines().map(|result| result.unwrap_or_else(|_| String::from("IOERROR")))`.
A line whose read failed becomes the literal job text `"IOERROR"`. -/
def readTxtLines (lines : List (Except String String)) : List String :=
  lines.map (fun r =>
    match r with
    | .ok s => s
    | .error _ => "IOERROR")

/-- `find_subsequence` in `src/server.rs`:
`haystack.windows(needle.len()).position(|window| window == needle)`.
When the haystack is shorter than the needle there are no windows. -/
def findSubsequence (haystack needle : List Nat) : Option Nat :=
  if haystack.length < needle.length then none
  else (List.range (haystack.length - needle.length + 1)).find?
    (fun i => (haystack.drop i).take needle.length = needle)

/-- The bytes of the `"\r\n\r\n"` header/body separator. -/
def crlfcrlf : List Nat := [13, 10, 13, 10]

/-- The `addr` string of `call_latexmls` (`src/server.rs`):
`format!("127.0.0.1:{}", self.port)`. -/
def addrString (port : Nat) : String := "127.0.0.1:" ++ toString port

/-- The exact request text written by `call_latexmls` (`src/server.rs`).
The Rust source is
`format!("POST 127.0.0.1:{} HTTP/1.0\nHost: {}\n...Content-Length: {}\n\n{}", addr, addr, body.len(), body)`:
note that the first placeholder receives the full `addr` (`127.0.0.1:<port>`)
although the literal text already starts with `POST 127.0.0.1:`, and that
`body.len()` is the UTF-8 byte length of the body. -/
def requestString (port : Nat) (body : String) : String :=
  "POST 127.0.0.1:" ++ addrString port ++ " HTTP/1.0\n" ++
  "Host: " ++ addrString port ++ "\n" ++
  "User-Agent: latexmlc\n" ++
  "Content-Type: application/x-www-form-urlencoded\n" ++
  "Content-Length: " ++ toString body.utf8ByteSize ++ "\n" ++
  "\n" ++ body

/-- Modelled from the spec (for the refinement comparison of claim C4):
the wire format the specification prescribes, whose request-target is the
literal `<host>:<port>` string with host `127.0.0.1`. -/
def specClaimedRequestString (port : Nat) (body : String) : String :=
  "POST " ++ addrString port ++ " HTTP/1.0\n" ++
  "Host: " ++ addrString port ++ "\n" ++
  "User-Agent: latexmlc\n" ++
  "Content-Type: application/x-www-form-urlencoded\n" ++
  "Content-Length: " ++ toString body.utf8ByteSize ++ "\n" ++
  "\n" ++ body

/-- The daemon spawn arguments of `ensure_server` (`src/server.rs`):
`Command::new(&self.latexmls_exec).arg("--port").arg(&self.port.to_string())
.arg("--autoflush").arg("0").arg("--timeout").arg("120").arg("--expire").arg("4")`. -/
def spawnArgs (port : Nat) : List String :=
  ["--port", toString port, "--autoflush", "0", "--timeout", "120", "--expire", "4"]

/-- Modelled from the spec (for the refinement comparison of claim C6):
the spawn argument list the specification prescribes, which includes
`--address 127.0.0.1`. -/
def specClaimedSpawnArgs (port : Nat) : List String :=
  ["--port", toString port, "--address", "127.0.0.1",
   "--autoflush", "0", "--timeout", "120", "--expire", "4"]

/-- The mutable state of a `Server` (Worker) in `src/server.rs`.  The
`child_proc : Option<Child>` handle is modelled by whether a handle is
held (`childProc`); the `connection : Option<TcpStream>` by an optional
stream identifier.  `latexmls_exec`, `cache_key` and `boot_options` do not
influence the modelled control flow and are omitted. -/
structure ServerState where
  port : Nat
  backupPort : Nat
  autoflush : Nat
  callCount : Nat
  childProc : Bool
  connection : Option Nat
deriving DecidableEq, Repr

/-- Transport-level errors a Worker surfaces (`Err(...)` returns of
`call_latexmls`): a failed `TcpStream::connect` (after its own internal
50 ms retry) and the `"response was empty."` error. -/
inductive TransportError where
  | connectFailed
  | emptyResponse
deriving DecidableEq, Repr

/-- Observable actions of a run, recorded in order. `callBegin c` records
that `call_latexmls` was entered while `call_count` was `c` (the value
before the `self.call_count += 1` on its first line). -/
inductive Event where
  | spawn (args : List String)
  | sleepMs (n : Nat)
  | initCall
  | callBegin (count : Nat)
  | connectTo (port : Nat)
  | wrote (request : String)
deriving DecidableEq, Repr

/-- Is an event a write of a request to the TCP stream? -/
def Event.isWrote : Event → Bool
  | .wrote _ => true
  | _ => false

/-- The environment of one `call_latexmls` invocation: the outcome of a
fresh `TcpStream::connect` if one is needed (its internal 50 ms-backoff
retry folded in), the bytes `read_to_end` yields, and the same for the
one recursive transport retry the call may make. -/
structure CallEnv where
  connectRes : Option Nat
  resp : List Nat
  connectRes2 : Option Nat
  resp2 : List Nat

/-- One non-recursing pass of `call_latexmls` (`src/server.rs`):
increment `call_count`; take the stored connection or connect afresh
(erring if that fails); write the request; read to EOF; an empty response
is an error (the stream, already taken out of `self.connection`, is
dropped); otherwise find the first `\r\n\r\n`, decode the bytes from that
index on as JSON (`unwrap_or_default`), store the stream back and return
the payload.  `decode` stands for `serde_json::from_slice`. -/
def callAttempt (decode : List Nat → Option LatexmlResponse) (st : ServerState)
    (connectRes : Option Nat) (respBytes : List Nat) (body : String) :
    Except TransportError LatexmlResponse × ServerState × List Event :=
  let st1 : ServerState := { st with callCount := st.callCount + 1, connection := none }
  let ev0 : List Event := [Event.callBegin st.callCount]
  let streamAndEvents : Option Nat × List Event :=
    match st.connection with
    | some s => (some s, ev0)
    | none => (connectRes, ev0 ++ [Event.connectTo st.port])
  match streamAndEvents with
  | (none, evs) => (.error .connectFailed, st1, evs)
  | (some s, evs) =>
    let evs := evs ++ [Event.wrote (requestString st.port body)]
    if respBytes = [] then
      (.error .emptyResponse, st1, evs)
    else
      let bodyIndex := (findSubsequence respBytes crlfcrlf).getD 0
      let payload := (decode (respBytes.drop bodyIndex)).getD LatexmlResponse.default
      (.ok payload, { st1 with connection := some s }, evs)

/-- `call_latexmls` (`src/server.rs`) with its bounded recursion unfolded:
the only error that triggers the recursive `self.call_latexmls(body, false)`
is the empty response, and only when `allow_retry` is true.  The retry runs
from the post-error state (connection dropped, `call_count` already
incremented) and connects afresh. -/
def callLatexmls (decode : List Nat → Option LatexmlResponse) (st : ServerState)
    (env : CallEnv) (body : String) (allowRetry : Bool) :
    Except TransportError LatexmlResponse × ServerState × List Event :=
  match callAttempt decode st env.connectRes env.resp body with
  | (.ok p, st1, e1) => (.ok p, st1, e1)
  | (.error .emptyResponse, st1, e1) =>
    if allowRetry then
      match callAttempt decode st1 env.connectRes2 env.resp2 body with
      | (r2, st2, e2) => (r2, st2, e1 ++ e2)
    else (.error .emptyResponse, st1, e1)
  | (.error e, st1, e1) => (.error e, st1, e1)

/-- The reap check at the top of `ensure_server` (`src/server.rs`): if the
child handle reports the process exited (`try_wait` returned `Ok(Some(_))`,
modelled by the oracle `reaped`), release the handle. -/
def reapCheck (st : ServerState) (reaped : Bool) : ServerState :=
  if st.childProc && reaped then { st with childProc := false } else st

/-- `rotate_ports` (`src/server.rs`): swap primary and backup ports, zero
`call_count`, take the child handle; if the child had already been reaped
(oracle `reaped`) just drop the handle, otherwise shut the connection down
and kill the child. -/
def rotatePorts (st : ServerState) (reaped : Bool) : ServerState :=
  let st2 : ServerState :=
    { st with port := st.backupPort, backupPort := st.port, callCount := 0 }
  if st2.childProc then
    if reaped then { st2 with childProc := false }
    else { st2 with connection := none, childProc := false }
  else st2

/-- The autoflush check of `ensure_server` (`src/server.rs`):
`if self.autoflush > 0 && self.call_count > self.autoflush { self.rotate_ports()?; }`. -/
def autoflushCheck (st : ServerState) (reaped : Bool) : ServerState :=
  if 0 < st.autoflush ∧ st.autoflush < st.callCount then rotatePorts st reaped else st

/-- Environment of one `ensure_server` run: the two `try_wait` oracles, the
outcome of the `TcpListener::bind` probe on the primary port, and the
environment of the `init_call` it may make. -/
structure EnsureEnv where
  reaped : Bool
  reapedAtRotate : Bool
  portOpen : Bool
  initEnv : CallEnv

/-- The worker state after `ensure_server`'s reap check and autoflush
check, before the bind probe. -/
def checkedState (st : ServerState) (env : EnsureEnv) : ServerState :=
  autoflushCheck (reapCheck st env.reaped) env.reapedAtRotate

/-- The worker state right after `ensure_server` kills any remaining child
(shutting its connection) and records the freshly spawned one, on the
bind-probe-success path. -/
def spawnedState (st : ServerState) (env : EnsureEnv) : ServerState :=
  let st2 := checkedState st env
  let st3 : ServerState :=
    if st2.childProc then { st2 with childProc := false, connection := none } else st2
  { st3 with childProc := true }

/-- `ensure_server` (`src/server.rs`): reap check; autoflush check; bind
probe on the primary port.  If (and only if) the port accepted the bind,
kill any remaining child (shutting its connection), spawn the daemon with
`spawnArgs`, sleep 1000 ms, and make one `init_call` (a `call_latexmls`
with `allow_retry = true` on the init body), surfacing its error via `?`. -/
def ensureServer (decode : List Nat → Option LatexmlResponse) (initBody : String)
    (st : ServerState) (env : EnsureEnv) :
    Except TransportError Unit × ServerState × List Event :=
  if env.portOpen then
    let st4 := spawnedState st env
    let ev0 : List Event :=
      [Event.spawn (spawnArgs st4.port), Event.sleepMs 1000, Event.initCall]
    match callLatexmls decode st4 env.initEnv initBody true with
    | (.ok _, st5, ev1) => (.ok (), st5, ev0 ++ ev1)
    | (.error e, st5, ev1) => (.error e, st5, ev0 ++ ev1)
  else (.ok (), checkedState st env, [])

/-- `Server::convert` (`src/server.rs`): `ensure_server` (surfacing its
error via `?`), then one `call_latexmls` with `allow_retry = true`; on a
transport error the connection is taken and shut down before the error is
returned to the caller.  The body built from the job
(`cache_key=...&source=literal:<urlencoded job>`) is passed in as `body`. -/
def Server.convert (decode : List Nat → Option LatexmlResponse)
    (initBody body : String) (st : ServerState) (eenv : EnsureEnv) (cenv : CallEnv) :
    Except TransportError LatexmlResponse × ServerState × List Event :=
  match ensureServer decode initBody st eenv with
  | (.error e, st1, ev) => (.error e, st1, ev)
  | (.ok _, st1, ev) =>
    match callLatexmls decode st1 cenv body true with
    | (.ok p, st2, ev2) => (.ok p, st2, ev ++ ev2)
    | (.error e, st2, ev2) => (.error e, { st2 with connection := none }, ev ++ ev2)

/-- The position tagging of `convert_iterator` (`src/harness.rs`):
`vals.enumerate()` pairs each record with its zero-based position, and each
task emits `(index, response)`.  `conv` abstracts the response a task
obtains for a given position and record. -/
def tagResponses (conv : Nat → String → LatexmlResponse)
    (l : List (Nat × String)) : List (Nat × LatexmlResponse) :=
  l.map (fun p => (p.1, conv p.1 p.2))

/-- The sort key of `results.sort_by_key(|x| x.0)` in `convert_iterator`. -/
def byPos (a b : Nat × LatexmlResponse) : Bool := a.1 ≤ b.1

/-- `convert_iterator` (`src/harness.rs`) for one batch: the rayon
`par_bridge` completes the position-tagged tasks in an arbitrary order
(`shuffled`, a permutation of the enumerated batch); the collected vector
is sorted by position and the positions stripped. -/
def convertIterator (conv : Nat → String → LatexmlResponse)
    (shuffled : List (Nat × String)) : List LatexmlResponse :=
  ((tagResponses conv shuffled).mergeSort byPos).map Prod.snd

/-- The in-input-order responses of a batch: position `i` gets the response
of record `i`. -/
def inOrderResponses (conv : Nat → String → LatexmlResponse)
    (batch : List String) : List LatexmlResponse :=
  batch.enum.map (fun p => conv p.1 p.2)

/-- The per-batch body of `convert_txt_file` / `convert_csv_file`
(`src/harness.rs`): run `convert_iterator`, `assert_eq!(r_len, b_len)`
(modelled as `none` on violation, i.e. the fatal panic), then write each
response's `result` field to the result sink and its decimal `status_code`
to the log sink, in order. -/
def convertBatchChecked (conv : Nat → String → LatexmlResponse)
    (batch : List String) (shuffled : List (Nat × String)) :
    Option (List String × List String) :=
  let results := convertIterator conv shuffled
  if results.length = batch.length then
    some (results.map LatexmlResponse.result, results.map statusLine)
  else
    none

/-- The batch loop of `convert_txt_file` / `convert_csv_file`
(`src/harness.rs`) over the chunked input, starting at batch index `k`:
each batch is processed to completion and its records appended to the two
sinks (both flushed) before the next batch begins.  Each batch comes with
the completion order its parallel tasks happened to finish in.
`conv` may depend on the batch index (the worker pool evolves between
batches). -/
def runBatchesFrom (conv : Nat → Nat → String → LatexmlResponse) (k : Nat) :
    List (List String × List (Nat × String)) → Option (List String × List String)
  | [] => some ([], [])
  | (batch, shuffled) :: rest =>
    match convertBatchChecked (conv k) batch shuffled with
    | none => none
    | some (res, logs) =>
      match runBatchesFrom conv (k + 1) rest with
      | none => none
      | some (res2, logs2) => some (res ++ res2, logs ++ logs2)

/-- A whole run: the batch loop from batch index `0`. -/
def runBatches (conv : Nat → Nat → String → LatexmlResponse)
    (jobs : List (List String × List (Nat × String))) :
    Option (List String × List String) :=
  runBatchesFrom conv 0 jobs

/-- Total number of input records of a chunked run. -/
def totalInputs (jobs : List (List String × List (Nat × String))) : Nat :=
  (jobs.map (fun bs => bs.1.length)).sum

/-- The body of one `convert_iterator` task (`src/harness.rs`): call
`server.convert(record)` on the popped worker; if it errs, retry on the
same worker; if it errs again, retry once more; a third error is replaced
by `LatexmlResponse::default()`.  `conv n s` is the outcome and new worker
state of attempt `n` (the environment differs between attempts) from
worker state `s`. -/
def taskResponse (conv : Nat → ServerState → Except TransportError LatexmlResponse × ServerState)
    (s : ServerState) : LatexmlResponse × ServerState :=
  match conv 0 s with
  | (.ok r, s1) => (r, s1)
  | (.error _, s1) =>
    match conv 1 s1 with
    | (.ok r, s2) => (r, s2)
    | (.error _, s2) =>
      match conv 2 s2 with
      | (.ok r, s3) => (r, s3)
      | (.error _, s3) => (LatexmlResponse.default, s3)

/-- A `convert_iterator` task's effect on the worker pool
(`src/harness.rs`): `self.servers.pop().unwrap()` (panic on an empty pool,
modelled as `none`), run the attempts, then `self.servers.push(server)`
on every path.  The `ArrayQueue` is FIFO: pop takes the front, push
appends at the back. -/
def taskOnPool (conv : Nat → ServerState → Except TransportError LatexmlResponse × ServerState)
    (pool : List ServerState) : Option (LatexmlResponse × List ServerState) :=
  match pool with
  | [] => none
  | s :: rest =>
    let (r, s1) := taskResponse conv s
    some (r, rest ++ [s1])

/-- `Harness::convert_one` (`src/harness.rs`): pop a worker, call
`server.convert(job)?` — on error the `?` returns early, dropping the
worker without pushing it back — and on success push the worker back and
return the payload's `result` field. -/
def convertOne (convStep : ServerState → Except TransportError LatexmlResponse × ServerState)
    (pool : List ServerState) : Option (Except TransportError String × List ServerState) :=
  match pool with
  | [] => none
  | s :: rest =>
    match convStep s with
    | (.error e, _) => some (.error e, rest)
    | (.ok payload, s1) => some (.ok payload.result, rest ++ [s1])

/-- `Server.convert` with its event trace dropped, as one task attempt
uses it: result and new worker state only. -/
def convertStep (decode : List Nat → Option LatexmlResponse) (initBody body : String)
    (eenv : EnsureEnv) (cenv : CallEnv) (s : ServerState) :
    Except TransportError LatexmlResponse × ServerState :=
  match Server.convert decode initBody body s eenv cenv with
  | (r, s1, _) => (r, s1)

/-- The reference outputs of a whole run, in input order: batch by batch,
each record contributing its `result` field to the result sink and its
decimal `status_code` to the log sink. -/
def inOrderRun (conv : Nat → Nat → String → LatexmlResponse) (k : Nat) :
    List (List String × List (Nat × String)) → List String × List String
  | [] => ([], [])
  | (batch, _) :: rest =>
    let rs := inOrderResponses (conv k) batch
    let tail := inOrderRun conv (k + 1) rest
    (rs.map LatexmlResponse.result ++ tail.1, rs.map statusLine ++ tail.2)

/-- Strict comparison of position-tagged responses by position. -/
def posLt (a b : Nat × LatexmlResponse) : Prop := a.1 < b.1

instance : IsAntisymm (Nat × LatexmlResponse) posLt :=
  ⟨fun _ _ h1 h2 => absurd (Nat.lt_trans h1 h2) (Nat.lt_irrefl _)⟩

instance : DecidableRel posLt := fun a b => Nat.decLt a.1 b.1

/-- The general shape of the HTTP/1.0 message of `call_latexmls`, with the
request-target and the `Host:` header value abstracted out. -/
def wireFormat (target host body : String) : String :=
  "POST " ++ target ++ " HTTP/1.0\n" ++
  "Host: " ++ host ++ "\n" ++
  "User-Agent: latexmlc\n" ++
  "Content-Type: application/x-www-form-urlencoded\n" ++
  "Content-Length: " ++ toString body.utf8ByteSize ++ "\n" ++
  "\n" ++ body

/-- A JSON decoder that fails on every input (any non-JSON response body). -/
def decodeNone : List Nat → Option LatexmlResponse := fun _ => none

/-- A JSON decoder that accepts every input as the empty response record. -/
def decodeEmptyOk : List Nat → Option LatexmlResponse := fun _ => some LatexmlResponse.empty

/-- A call environment in which every connect fails and every read is empty. -/
def emptyCallEnv : CallEnv := { connectRes := none, resp := [], connectRes2 := none, resp2 := [] }

/-- An ensure environment in which the bind probe fails (a daemon is
already bound on the port), so `ensure_server` does not spawn. -/
def offlineEnsureEnv : EnsureEnv :=
  { reaped := false, reapedAtRotate := false, portOpen := false, initEnv := emptyCallEnv }

/-- A freshly constructed worker at port 3334 (backup 3534), autoflush
disabled, before any boot. -/
def baseServer : ServerState :=
  { port := 3334, backupPort := 3534, autoflush := 0, callCount := 0
    childProc := false, connection := none }

/-- A worker holding a live child and a live stream (id 5). -/
def liveServer : ServerState :=
  { port := 3334, backupPort := 3534, autoflush := 0, callCount := 0
    childProc := true, connection := some 5 }

/-- A call environment whose read yields the single byte `0x41` — a
non-empty response with no `\r\n\r\n` separator and no valid JSON. -/
def junkCallEnv : CallEnv := { connectRes := none, resp := [65], connectRes2 := none, resp2 := [] }

/-- An ensure environment for claim C5's counterexample: the bind probe
succeeds, and both reads of the `init_call` come back empty. -/
def bootFailEnsureEnv : EnsureEnv :=
  { reaped := false, reapedAtRotate := false, portOpen := true
    initEnv := { connectRes := some 1, resp := [], connectRes2 := some 2, resp2 := [] } }

/-- A worker for claim C9's counterexample: `autoflush = 1` and one
completed call (`call_count = 1`), holding a child handle but no stream. -/
def autoflushServer : ServerState :=
  { port := 3334, backupPort := 3534, autoflush := 1, callCount := 1
    childProc := true, connection := some 5 }

/-- An ensure environment for claim C9's counterexample: the child has
been reaped (the daemon died), the port accepts a bind, and the respawned
daemon answers the `init_call` with a decodable body (byte `0x7b`). -/
def respawnEnsureEnv : EnsureEnv :=
  { reaped := true, reapedAtRotate := false, portOpen := true
    initEnv := { connectRes := some 1, resp := [123], connectRes2 := none, resp2 := [] } }

/-- A call environment whose read yields the decodable body `0x7b` on a
fresh connection (id 2). -/
def okCallEnv : CallEnv := { connectRes := some 2, resp := [123], connectRes2 := none, resp2 := [] }

/-- The per-attempt convert step in which every attempt fails: the worker
has no stream, the bind probe fails (no respawn) and the connect fails. -/
def failingStep (s : ServerState) : Except TransportError LatexmlResponse × ServerState :=
  convertStep decodeNone "" "" offlineEnsureEnv emptyCallEnv s

/-- A two-record batch together with a completion order in which the
second task finished first. -/
def demoJobs : List (List String × List (Nat × String)) :=
  [(["a", "b"], [(1, "b"), (0, "a")])]

/-- A deterministic response assignment for the demonstration batch. -/
def demoConv : Nat → Nat → String → LatexmlResponse :=
  fun _ i s => { status_code := i, status := "", result := s, log := "" }

/-- Demonstration input lines for claim C10: the second line's read fails. -/
def demoLines : List (Except String String) := [.ok "x", .error "boom"]

/-- A convert step that succeeds: the bind probe fails (daemon already
bound), the fresh connect succeeds and the read yields a decodable body. -/
def succeedingStep (s : ServerState) : Except TransportError LatexmlResponse × ServerState :=
  convertStep decodeEmptyOk "" "" offlineEnsureEnv okCallEnv s

/-! ## Helper lemmas -/

theorem tagResponses_map_fst (conv : Nat → String → LatexmlResponse)
    (l : List (Nat × String)) :
    (tagResponses conv l).map Prod.fst = l.map Prod.fst := by
  simp [tagResponses, List.map_map, Function.comp_def]

theorem mergeSort_tagged (conv : Nat → String → LatexmlResponse) (batch : List String)
    (shuffled : List (Nat × String)) (h : shuffled.Perm batch.enum) :
    (tagResponses conv shuffled).mergeSort byPos = tagResponses conv batch.enum := by
  have hmapperm : (tagResponses conv shuffled).Perm (tagResponses conv batch.enum) :=
    h.map (fun p : Nat × String => (p.1, conv p.1 p.2))
  have hperm : ((tagResponses conv shuffled).mergeSort byPos).Perm
      (tagResponses conv batch.enum) :=
    (List.mergeSort_perm _ byPos).trans hmapperm
  have hkeys : (tagResponses conv batch.enum).map Prod.fst = List.range batch.length := by
    rw [tagResponses_map_fst, List.enum_map_fst]
  have hsorted2 : List.Sorted posLt (tagResponses conv batch.enum) := by
    have hr := List.pairwise_lt_range batch.length
    rw [← hkeys, List.pairwise_map] at hr
    exact hr
  have hle : List.Pairwise (fun a b : Nat × LatexmlResponse => byPos a b = true)
      ((tagResponses conv shuffled).mergeSort byPos) :=
    List.sorted_mergeSort
      (by intro a b c hab hbc; simp only [byPos, decide_eq_true_eq] at *; omega)
      (by intro a b; simp only [byPos, Bool.or_eq_true, decide_eq_true_eq]; omega) _
  have hndkeys : (((tagResponses conv shuffled).mergeSort byPos).map Prod.fst).Nodup := by
    have hpk : ((((tagResponses conv shuffled).mergeSort byPos).map Prod.fst)).Perm
        (List.range batch.length) := by
      rw [← hkeys]
      exact hperm.map Prod.fst
    exact hpk.symm.nodup (List.nodup_range batch.length)
  have hne : List.Pairwise (fun a b : Nat × LatexmlResponse => a.1 ≠ b.1)
      ((tagResponses conv shuffled).mergeSort byPos) := by
    have hnd2 := hndkeys
    rw [List.Nodup, List.pairwise_map] at hnd2
    exact hnd2
  have hsorted1 : List.Sorted posLt ((tagResponses conv shuffled).mergeSort byPos) := by
    refine (hle.and hne).imp ?_
    intro a b hab
    rcases hab with ⟨h1, h2⟩
    simp only [byPos, decide_eq_true_eq] at h1
    exact Nat.lt_of_le_of_ne h1 h2
  exact List.eq_of_perm_of_sorted hperm hsorted1 hsorted2

theorem convertIterator_eq_inOrder (conv : Nat → String → LatexmlResponse)
    (batch : List String) (shuffled : List (Nat × String)) (h : shuffled.Perm batch.enum) :
    convertIterator conv shuffled = inOrderResponses conv batch := by
  rw [convertIterator, mergeSort_tagged conv batch shuffled h]
  simp [tagResponses, inOrderResponses, List.map_map, Function.comp_def]

theorem inOrderResponses_length (conv : Nat → String → LatexmlResponse)
    (batch : List String) : (inOrderResponses conv batch).length = batch.length := by
  simp [inOrderResponses]

theorem convertBatchChecked_eq (conv : Nat → String → LatexmlResponse)
    (batch : List String) (shuffled : List (Nat × String)) (h : shuffled.Perm batch.enum) :
    convertBatchChecked conv batch shuffled
      = some ((inOrderResponses conv batch).map LatexmlResponse.result,
              (inOrderResponses conv batch).map statusLine) := by
  rw [convertBatchChecked]
  rw [convertIterator_eq_inOrder conv batch shuffled h]
  simp [inOrderResponses_length]

theorem runBatchesFrom_eq_inOrderRun (conv : Nat → Nat → String → LatexmlResponse)
    (jobs : List (List String × List (Nat × String)))
    (hperm : ∀ bs ∈ jobs, bs.2.Perm bs.1.enum) (k : Nat) :
    runBatchesFrom conv k jobs = some (inOrderRun conv k jobs) := by
  induction jobs generalizing k with
  | nil => rfl
  | cons bs rest ih =>
    obtain ⟨batch, shuffled⟩ := bs
    have hb : shuffled.Perm batch.enum := hperm (batch, shuffled) (List.mem_cons_self _ _)
    have hrest : ∀ bs ∈ rest, bs.2.Perm bs.1.enum :=
      fun bs hbs => hperm bs (List.mem_cons_of_mem _ hbs)
    rw [runBatchesFrom, convertBatchChecked_eq (conv k) batch shuffled hb, ih hrest (k + 1)]
    rfl

theorem inOrderRun_length (conv : Nat → Nat → String → LatexmlResponse)
    (jobs : List (List String × List (Nat × String))) (k : Nat) :
    (inOrderRun conv k jobs).1.length = totalInputs jobs
      ∧ (inOrderRun conv k jobs).2.length = totalInputs jobs := by
  induction jobs generalizing k with
  | nil => exact ⟨rfl, rfl⟩
  | cons bs rest ih =>
    obtain ⟨batch, shuffled⟩ := bs
    obtain ⟨ih1, ih2⟩ := ih (k + 1)
    constructor
    · simp [inOrderRun, totalInputs, inOrderResponses_length, ih1]
    · simp [inOrderRun, totalInputs, inOrderResponses_length, ih2]

/-! ## Claims -/

/-- C1: For every batch processed by the Dispatcher (`convert_txt_file` /
`convert_csv_file` via `convert_iterator`), whatever order the parallel
tasks complete in, the responses are sorted back to each record's
zero-based position within the batch, the length-equality assertion
succeeds (no fatal panic), the `i`-th record written to the result sink is
that record's `result` field and the `i`-th record written to the log sink
is its `status_code` in decimal, and after every batch and after the run
`|inputs| = |result sink records| = |log sink records|`. -/
theorem dispatcher_batch_alignment
    (conv : Nat → Nat → String → LatexmlResponse)
    (jobs : List (List String × List (Nat × String)))
    (hperm : ∀ bs ∈ jobs, bs.2.Perm bs.1.enum) :
    runBatches conv jobs = some (inOrderRun conv 0 jobs)
    ∧ (inOrderRun conv 0 jobs).1.length = totalInputs jobs
    ∧ (inOrderRun conv 0 jobs).2.length = totalInputs jobs
    ∧ (∀ j, runBatches conv (jobs.take j) = some (inOrderRun conv 0 (jobs.take j))
        ∧ (inOrderRun conv 0 (jobs.take j)).1.length = totalInputs (jobs.take j)
        ∧ (inOrderRun conv 0 (jobs.take j)).2.length = totalInputs (jobs.take j))
    ∧ (∀ bs ∈ jobs, ∀ k,
        convertBatchChecked (conv k) bs.1 bs.2
          = some ((inOrderResponses (conv k) bs.1).map LatexmlResponse.result,
                  (inOrderResponses (conv k) bs.1).map statusLine)
        ∧ ∀ i : Nat,
            ((inOrderResponses (conv k) bs.1).map LatexmlResponse.result)[i]?
              = bs.1[i]?.map (fun s => (conv k i s).result)
          ∧ ((inOrderResponses (conv k) bs.1).map statusLine)[i]?
              = bs.1[i]?.map (fun s => statusLine (conv k i s))) := by
  refine ⟨runBatchesFrom_eq_inOrderRun conv jobs hperm 0,
    (inOrderRun_length conv jobs 0).1, (inOrderRun_length conv jobs 0).2, ?_, ?_⟩
  · intro j
    have hp : ∀ bs ∈ jobs.take j, bs.2.Perm bs.1.enum :=
      fun bs hbs => hperm bs (List.take_subset j jobs hbs)
    exact ⟨runBatchesFrom_eq_inOrderRun conv (jobs.take j) hp 0,
      (inOrderRun_length conv (jobs.take j) 0).1, (inOrderRun_length conv (jobs.take j) 0).2⟩
  · intro bs hbs k
    refine ⟨convertBatchChecked_eq (conv k) bs.1 bs.2 (hperm bs hbs), ?_⟩
    intro i
    constructor
    · cases h : bs.1[i]? <;>
        simp [inOrderResponses, List.getElem?_map, List.getElem?_enum, h]
    · cases h : bs.1[i]? <;>
        simp [inOrderResponses, List.getElem?_map, List.getElem?_enum, h]

/-- Witness for C1 at a concrete two-record batch whose tasks completed in
reversed order. -/
theorem dispatcher_batch_alignment_witness :
    runBatches demoConv demoJobs = some (inOrderRun demoConv 0 demoJobs)
    ∧ (inOrderRun demoConv 0 demoJobs).1.length = totalInputs demoJobs
    ∧ (inOrderRun demoConv 0 demoJobs).2.length = totalInputs demoJobs := by
  have h := dispatcher_batch_alignment demoConv demoJobs (by decide)
  exact ⟨h.1, h.2.1, h.2.2.1⟩

/-- C10: In `convert_txt_file`, every input line whose read from the
underlying file fails with an I/O error is replaced by the literal string
`"IOERROR"` as that line's job text; a per-line read failure never aborts
the run and never removes the record from the stream (the mapped list has
the same length, and lines that read successfully pass through unchanged). -/
theorem txt_line_ioerror (lines : List (Except String String)) :
    (readTxtLines lines).length = lines.length
    ∧ (∀ i : Nat, ∀ e, lines[i]? = some (.error e) →
        (readTxtLines lines)[i]? = some "IOERROR")
    ∧ (∀ i : Nat, ∀ s, lines[i]? = some (.ok s) →
        (readTxtLines lines)[i]? = some s) := by
  refine ⟨by simp [readTxtLines], ?_, ?_⟩
  · intro i e h
    simp [readTxtLines, List.getElem?_map, h]
  · intro i s h
    simp [readTxtLines, List.getElem?_map, h]

/-- Witness for C10: a concrete two-line input whose second read fails. -/
theorem txt_line_ioerror_witness :
    (readTxtLines demoLines).length = demoLines.length
    ∧ (readTxtLines demoLines)[1]? = some "IOERROR"
    ∧ (readTxtLines demoLines)[0]? = some "x" :=
  ⟨(txt_line_ioerror demoLines).1,
   (txt_line_ioerror demoLines).2.1 1 "boom" rfl,
   (txt_line_ioerror demoLines).2.2 0 "x" rfl⟩

/-- C2: For a job whose `Worker.convert` errors on the initial attempt and
on both retries (all three attempts threading the same Worker's state),
the `convert_iterator` task substitutes exactly the sentinel record
`{status_code: 3, status: "Default latexml_runner fatal", result: "",
log: "Default latexml_runner fatal"}`, so that job's result line is `""`
and its log line is `"3"`, and the task still returns its Worker to the
pool, so the pipeline continues with the remaining records. -/
theorem sentinel_on_persistent_failure
    (decode : List Nat → Option LatexmlResponse) (initBody body : String)
    (eenvs : Nat → EnsureEnv) (cenvs : Nat → CallEnv)
    (s s1 s2 : ServerState) (e0 e1 e2 : TransportError)
    (h0 : convertStep decode initBody body (eenvs 0) (cenvs 0) s = (.error e0, s1))
    (h1 : convertStep decode initBody body (eenvs 1) (cenvs 1) s1 = (.error e1, s2))
    (h2 : (convertStep decode initBody body (eenvs 2) (cenvs 2) s2).1 = .error e2) :
    (taskResponse (fun n t => convertStep decode initBody body (eenvs n) (cenvs n) t) s).1
        = LatexmlResponse.default
    ∧ LatexmlResponse.default
        = ⟨3, "Default latexml_runner fatal", "", "Default latexml_runner fatal"⟩
    ∧ LatexmlResponse.default.result = ""
    ∧ statusLine LatexmlResponse.default = "3"
    ∧ (∀ rest : List ServerState,
        taskOnPool (fun n t => convertStep decode initBody body (eenvs n) (cenvs n) t)
            (s :: rest)
          = some (LatexmlResponse.default,
              rest ++ [(convertStep decode initBody body (eenvs 2) (cenvs 2) s2).2])
        ∧ (rest ++ [(convertStep decode initBody body (eenvs 2) (cenvs 2) s2).2]).length
            = (s :: rest).length) := by
  have htask : taskResponse (fun n t => convertStep decode initBody body (eenvs n) (cenvs n) t) s
      = (LatexmlResponse.default,
         (convertStep decode initBody body (eenvs 2) (cenvs 2) s2).2) := by
    rcases hx2 : convertStep decode initBody body (eenvs 2) (cenvs 2) s2 with ⟨r2, s3⟩
    rw [hx2] at h2
    simp only at h2
    subst h2
    simp only [taskResponse, h0, h1, hx2]
  refine ⟨by rw [htask], rfl, rfl, rfl, ?_⟩
  intro rest
  constructor
  · rw [taskOnPool, htask]
  · simp

/-- Witness for C2: a worker with no stream whose connects all fail, so
all three attempts raise transport errors. -/
theorem sentinel_on_persistent_failure_witness :
    (taskResponse
        (fun n t => convertStep decodeNone "" ""
          ((fun _ => offlineEnsureEnv) n) ((fun _ => emptyCallEnv) n) t)
        baseServer).1 = LatexmlResponse.default
    ∧ LatexmlResponse.default.result = ""
    ∧ statusLine LatexmlResponse.default = "3" := by
  have h := sentinel_on_persistent_failure decodeNone "" "" (fun _ => offlineEnsureEnv)
    (fun _ => emptyCallEnv) baseServer
    { baseServer with callCount := 1 } { baseServer with callCount := 2 }
    .connectFailed .connectFailed .connectFailed rfl rfl rfl
  exact ⟨h.1, h.2.2.1, h.2.2.2.1⟩

/-- C3 counterexample: `convert_one` does not return the Worker to the
Pool on the error path.  With a one-worker pool whose convert fails, the
`?` early return drops the worker: the pool comes back empty, so
`|pool| + |in flight|` shrinks from 1 to 0. -/
theorem convert_one_drops_worker :
    convertOne failingStep [baseServer] = some (.error .connectFailed, [])
    ∧ ([baseServer] : List ServerState).length = 1
    ∧ ([] : List ServerState).length = 0 :=
  ⟨rfl, rfl, rfl⟩

/-- C3 (amended): every `convert_iterator` task returns its Worker
(possibly with updated state) to the Pool on every path, preserving
`|pool| + |in flight|`; `convert_one` preserves the pool population only
on its success path — on a convert error it returns early without pushing
the Worker back. -/
theorem pool_return_discipline
    (conv : Nat → ServerState → Except TransportError LatexmlResponse × ServerState)
    (convStep1 : ServerState → Except TransportError LatexmlResponse × ServerState)
    (s : ServerState) (rest : List ServerState) :
    taskOnPool conv (s :: rest)
        = some ((taskResponse conv s).1, rest ++ [(taskResponse conv s).2])
    ∧ (rest ++ [(taskResponse conv s).2]).length = (s :: rest).length
    ∧ (∀ res pool1, convertOne convStep1 (s :: rest) = some (.ok res, pool1) →
        pool1.length = (s :: rest).length) := by
  refine ⟨?_, by simp, ?_⟩
  · rcases ht : taskResponse conv s with ⟨r, s1⟩
    simp [taskOnPool, ht]
  · intro res pool1 h
    rw [convertOne] at h
    rcases hx : convStep1 s with ⟨r, s1⟩
    rw [hx] at h
    cases r with
    | error e => simp at h
    | ok p =>
      simp only [Option.some.injEq, Prod.mk.injEq] at h
      rw [← h.2]
      simp

/-- Witness for C3 (amended) on a one-worker pool, with a succeeding step
for the `convert_one` conjunct. -/
theorem pool_return_discipline_witness :
    taskOnPool (fun _ t => failingStep t) [baseServer]
        = some ((taskResponse (fun _ t => failingStep t) baseServer).1,
                [] ++ [(taskResponse (fun _ t => failingStep t) baseServer).2])
    ∧ ([] ++ [(taskResponse (fun _ t => failingStep t) baseServer).2]).length
        = ([baseServer] : List ServerState).length
    ∧ ([{ baseServer with callCount := 1, connection := some 2 }] : List ServerState).length
        = ([baseServer] : List ServerState).length := by
  have h := pool_return_discipline (fun _ t => failingStep t) succeedingStep baseServer []
  exact ⟨h.1, h.2.1,
    h.2.2 "" [{ baseServer with callCount := 1, connection := some 2 }] rfl⟩
-- appended fragment for C4
theorem callAttempt_port (decode : List Nat → Option LatexmlResponse) (st : ServerState)
    (cr : Option Nat) (rb : List Nat) (body : String) :
    (callAttempt decode st cr rb body).2.1.port = st.port := by
  unfold callAttempt
  cases st.connection <;> cases cr <;> by_cases hrb : rb = [] <;> simp [hrb]

theorem callAttempt_wrote (decode : List Nat → Option LatexmlResponse) (st : ServerState)
    (cr : Option Nat) (rb : List Nat) (body : String) :
    ∀ e ∈ (callAttempt decode st cr rb body).2.2, e.isWrote = true →
      e = .wrote (requestString st.port body) := by
  intro e he hw
  unfold callAttempt at he
  cases hc : st.connection with
  | none =>
    cases cr with
    | none =>
      simp [hc] at he
      rcases he with he | he <;> subst he <;> simp [Event.isWrote] at hw
    | some s =>
      by_cases hrb : rb = []
      · simp [hc, hrb] at he
        rcases he with he | he | he <;> subst he <;>
          first
          | rfl
          | simp [Event.isWrote] at hw
      · simp [hc, hrb] at he
        rcases he with he | he | he <;> subst he <;>
          first
          | rfl
          | simp [Event.isWrote] at hw
  | some s =>
    by_cases hrb : rb = []
    · simp [hc, hrb] at he
      rcases he with he | he <;> subst he <;>
        first
        | rfl
        | simp [Event.isWrote] at hw
    · simp [hc, hrb] at he
      rcases he with he | he <;> subst he <;>
        first
        | rfl
        | simp [Event.isWrote] at hw

theorem callLatexmls_wrote (decode : List Nat → Option LatexmlResponse) (st : ServerState)
    (env : CallEnv) (body : String) (retry : Bool) :
    ∀ e ∈ (callLatexmls decode st env body retry).2.2, e.isWrote = true →
      e = .wrote (requestString st.port body) := by
  intro e he hw
  unfold callLatexmls at he
  rcases h1 : callAttempt decode st env.connectRes env.resp body with ⟨r1, st1, e1⟩
  have hport : st1.port = st.port := by
    have hp := callAttempt_port decode st env.connectRes env.resp body
    rw [h1] at hp
    exact hp
  have hmem1 : ∀ x, x ∈ e1 → x ∈ (callAttempt decode st env.connectRes env.resp body).2.2 := by
    intro x hx
    rw [h1]
    exact hx
  rw [h1] at he
  cases r1 with
  | ok p =>
    exact callAttempt_wrote decode st env.connectRes env.resp body e (hmem1 e he) hw
  | error err =>
    cases err with
    | connectFailed =>
      exact callAttempt_wrote decode st env.connectRes env.resp body e (hmem1 e he) hw
    | emptyResponse =>
      cases retry with
      | false =>
        exact callAttempt_wrote decode st env.connectRes env.resp body e (hmem1 e he) hw
      | true =>
        simp only at he
        rcases h2 : callAttempt decode st1 env.connectRes2 env.resp2 body with ⟨r2, st2, e2⟩
        rw [h2] at he
        have he2 : e ∈ e1 ++ e2 := he
        rcases List.mem_append.mp he2 with hin | hin
        · exact callAttempt_wrote decode st env.connectRes env.resp body e (hmem1 e hin) hw
        · have hmem2 : e ∈ (callAttempt decode st1 env.connectRes2 env.resp2 body).2.2 := by
            rw [h2]
            exact hin
          have hres := callAttempt_wrote decode st1 env.connectRes2 env.resp2 body e hmem2 hw
          rw [hport] at hres
          exact hres

/-- C4 counterexample: the request line is not
`POST <host>:<port> HTTP/1.0` — the format string of `call_latexmls`
already contains the literal `POST 127.0.0.1:` before interpolating the
full `<host>:<port>` address, so the target is duplicated. -/
theorem request_target_mismatch :
    requestString 3334 "x" ≠ specClaimedRequestString 3334 "x" := by decide

/-- C4 (amended): for every body sent by `call_latexmls`, the bytes
written to the TCP stream are exactly
`POST 127.0.0.1:<host>:<port> HTTP/1.0\nHost: <host>:<port>\nUser-Agent: latexmlc\nContent-Type: application/x-www-form-urlencoded\nContent-Length: <n>\n\n<body>`
with `\n` as line terminator, where the request-target carries an extra
literal `127.0.0.1:` prefix before the `<host>:<port>` string
(host `127.0.0.1`, the Worker's current port) and `<n>` is the byte
length of the body; every write the call performs (including its
transport retry) is exactly this message. -/
theorem request_bytes_exact (port : Nat) (body : String)
    (decode : List Nat → Option LatexmlResponse) (st : ServerState)
    (env : CallEnv) (retry : Bool) :
    requestString port body
        = wireFormat ("127.0.0.1:" ++ addrString port) (addrString port) body
    ∧ (∀ e ∈ (callLatexmls decode st env body retry).2.2, e.isWrote = true →
        e = .wrote (requestString st.port body)) := by
  constructor
  · simp [requestString, wireFormat, ← String.append_assoc]
  · exact callLatexmls_wrote decode st env body retry

/-- Witness for C4 (amended): the single write of a concrete call on a
worker with a live stream is the exact message. -/
theorem request_bytes_exact_witness :
    requestString 3334 "x"
        = wireFormat ("127.0.0.1:" ++ addrString 3334) (addrString 3334) "x"
    ∧ Event.wrote (requestString liveServer.port "x")
        = Event.wrote (requestString liveServer.port "x") := by
  have h := request_bytes_exact 3334 "x" decodeNone liveServer junkCallEnv true
  exact ⟨h.1,
    h.2 (Event.wrote (requestString liveServer.port "x"))
      (List.Mem.tail _ (List.Mem.head _)) rfl⟩

theorem callAttempt_no_init (decode : List Nat → Option LatexmlResponse) (st : ServerState)
    (cr : Option Nat) (rb : List Nat) (body : String) :
    Event.initCall ∉ (callAttempt decode st cr rb body).2.2 := by
  unfold callAttempt
  cases st.connection <;> cases cr <;> by_cases hrb : rb = [] <;> simp [hrb]

theorem callLatexmls_no_init (decode : List Nat → Option LatexmlResponse) (st : ServerState)
    (env : CallEnv) (body : String) (retry : Bool) :
    Event.initCall ∉ (callLatexmls decode st env body retry).2.2 := by
  unfold callLatexmls
  rcases h1 : callAttempt decode st env.connectRes env.resp body with ⟨r1, st1, e1⟩
  have n1 := callAttempt_no_init decode st env.connectRes env.resp body
  rw [h1] at n1
  cases r1 with
  | ok p => exact n1
  | error err =>
    cases err with
    | connectFailed => exact n1
    | emptyResponse =>
      cases retry with
      | false => exact n1
      | true =>
        rcases h2 : callAttempt decode st1 env.connectRes2 env.resp2 body with ⟨r2, st2, e2⟩
        have n2 := callAttempt_no_init decode st1 env.connectRes2 env.resp2 body
        rw [h2] at n2
        simp only [h2]
        intro hmem
        rcases List.mem_append.mp hmem with h | h
        · exact n1 h
        · exact n2 h

theorem ensureServer_open (decode : List Nat → Option LatexmlResponse) (initBody : String)
    (st : ServerState) (env : EnsureEnv) (hopen : env.portOpen = true) :
    ensureServer decode initBody st env
      = (match callLatexmls decode (spawnedState st env) env.initEnv initBody true with
         | (.ok _, st5, ev1) => (.ok (), st5,
             Event.spawn (spawnArgs (spawnedState st env).port) :: Event.sleepMs 1000
               :: Event.initCall :: ev1)
         | (.error e, st5, ev1) => (.error e, st5,
             Event.spawn (spawnArgs (spawnedState st env).port) :: Event.sleepMs 1000
               :: Event.initCall :: ev1)) := by
  unfold ensureServer
  rw [hopen]
  rcases hc : callLatexmls decode (spawnedState st env) env.initEnv initBody true
    with ⟨r, st5, ev1⟩
  cases r <;> simp [hc]

/-- C5 (amended): `ensure_server` spawns exactly when the primary port
accepts a bind (regardless of child liveness): it then spawns the daemon,
sleeps ~1 s (not ~500 ms) and makes exactly one `init_call` (whose
internal transport retry belongs to the call itself and is not a second
`init_call`); the first `init_call` failure is surfaced to the caller
with no further retry.  When the bind fails nothing is spawned and no
`init_call` is made, even when there is no live child. -/
theorem ensure_server_boot_procedure (decode : List Nat → Option LatexmlResponse)
    (initBody : String) (st : ServerState) (env : EnsureEnv) :
    (env.portOpen = true →
      (ensureServer decode initBody st env).2.2
          = Event.spawn (spawnArgs (spawnedState st env).port) :: Event.sleepMs 1000
            :: Event.initCall
            :: (callLatexmls decode (spawnedState st env) env.initEnv initBody true).2.2
      ∧ (ensureServer decode initBody st env).2.2.count Event.initCall = 1
      ∧ (∀ e, (callLatexmls decode (spawnedState st env) env.initEnv initBody true).1
            = .error e →
          (ensureServer decode initBody st env).1 = .error e)
      ∧ (∀ p, (callLatexmls decode (spawnedState st env) env.initEnv initBody true).1
            = .ok p →
          (ensureServer decode initBody st env).1 = .ok ()))
    ∧ (env.portOpen = false →
        ensureServer decode initBody st env = (.ok (), checkedState st env, [])) := by
  constructor
  · intro hopen
    have hred := ensureServer_open decode initBody st env hopen
    have hnoinit := callLatexmls_no_init decode (spawnedState st env) env.initEnv initBody true
    rcases hc : callLatexmls decode (spawnedState st env) env.initEnv initBody true
      with ⟨r, st5, ev1⟩
    rw [hc] at hred hnoinit
    have hcount : ev1.count Event.initCall = 0 := List.count_eq_zero.mpr hnoinit
    cases r with
    | ok p =>
      simp only at hred
      refine ⟨?_, ?_, ?_, ?_⟩
      · rw [hred]
      · rw [hred]
        simp [List.count_cons, hcount]
      · intro e he
        simp at he
      · intro q hq
        rw [hred]
    | error err =>
      simp only at hred
      refine ⟨?_, ?_, ?_, ?_⟩
      · rw [hred]
      · rw [hred]
        simp [List.count_cons, hcount]
      · intro e he
        rw [hred]
        exact congrArg Except.error (Except.error.inj he)
      · intro q hq
        simp at hq
  · intro hclosed
    simp [ensureServer, hclosed]

/-- Witness for C5 (amended) at a concrete boot whose `init_call` reads
come back empty, and a concrete closed-port run. -/
theorem ensure_server_boot_procedure_witness :
    (ensureServer decodeNone "i" baseServer bootFailEnsureEnv).2.2
        = Event.spawn (spawnArgs (spawnedState baseServer bootFailEnsureEnv).port)
          :: Event.sleepMs 1000 :: Event.initCall
          :: (callLatexmls decodeNone (spawnedState baseServer bootFailEnsureEnv)
                bootFailEnsureEnv.initEnv "i" true).2.2
    ∧ ensureServer decodeNone "i" baseServer offlineEnsureEnv
        = (.ok (), checkedState baseServer offlineEnsureEnv, []) :=
  ⟨((ensure_server_boot_procedure decodeNone "i" baseServer bootFailEnsureEnv).1 rfl).1,
   (ensure_server_boot_procedure decodeNone "i" baseServer offlineEnsureEnv).2 rfl⟩

/-- C5 counterexample: on a concrete boot whose daemon never answers, the
first `init_call` failure is surfaced after a single ~1 s sleep and a
single `init_call` (the claimed ~500 ms sleep and second `init_call`
attempt do not happen); and with the bind probe failing, no daemon is
spawned even though there is no live child. -/
theorem ensure_server_boot_counterexample :
    (ensureServer decodeNone "i" baseServer bootFailEnsureEnv).1
        = .error .emptyResponse
    ∧ (ensureServer decodeNone "i" baseServer bootFailEnsureEnv).2.2.count
        Event.initCall = 1
    ∧ Event.sleepMs 1000 ∈ (ensureServer decodeNone "i" baseServer bootFailEnsureEnv).2.2
    ∧ Event.sleepMs 500 ∉ (ensureServer decodeNone "i" baseServer bootFailEnsureEnv).2.2
    ∧ baseServer.childProc = false
    ∧ (ensureServer decodeNone "i" baseServer offlineEnsureEnv).2.2 = [] := by
  refine ⟨rfl, ?_, ?_, ?_, rfl, rfl⟩ <;> decide

theorem spawnedState_port (st : ServerState) (env : EnsureEnv) :
    (spawnedState st env).port = (checkedState st env).port := by
  unfold spawnedState
  by_cases h : (checkedState st env).childProc <;> simp [h]

/-- C6 counterexample: the spawn argument list of `ensure_server` does not
include `--address 127.0.0.1`. -/
theorem spawn_args_no_address :
    spawnArgs 3334 ≠ specClaimedSpawnArgs 3334 := by decide

/-- C6 (amended): every time a Worker spawns its daemon child process, the
child is started with exactly the arguments
`--port <port> --autoflush 0 --timeout 120 --expire 4` (without any
`--address` argument), where `<port>` is the Worker's current primary
port after the reap and autoflush checks. -/
theorem spawn_args_exact (port : Nat) (decode : List Nat → Option LatexmlResponse)
    (initBody : String) (st : ServerState) (env : EnsureEnv) :
    spawnArgs port
        = ["--port", toString port, "--autoflush", "0", "--timeout", "120",
           "--expire", "4"]
    ∧ (env.portOpen = true →
        (ensureServer decode initBody st env).2.2.head?
          = some (Event.spawn (spawnArgs (checkedState st env).port))) := by
  refine ⟨rfl, ?_⟩
  intro hopen
  have hred := ensureServer_open decode initBody st env hopen
  rcases hc : callLatexmls decode (spawnedState st env) env.initEnv initBody true
    with ⟨r, st5, ev1⟩
  rw [hc] at hred
  have hport := spawnedState_port st env
  cases r <;> simp only at hred <;> rw [hred] <;> simp [hport]

/-- Witness for C6 (amended) at a concrete boot. -/
theorem spawn_args_exact_witness :
    spawnArgs 3334
        = ["--port", toString 3334, "--autoflush", "0", "--timeout", "120",
           "--expire", "4"]
    ∧ (ensureServer decodeNone "i" baseServer bootFailEnsureEnv).2.2.head?
        = some (Event.spawn (spawnArgs (checkedState baseServer bootFailEnsureEnv).port)) := by
  have h := spawn_args_exact 3334 decodeNone "i" baseServer bootFailEnsureEnv
  exact ⟨h.1, h.2 rfl⟩

theorem callAttempt_conn (decode : List Nat → Option LatexmlResponse) (st : ServerState)
    (cr : Option Nat) (rb : List Nat) (body : String) :
    (∀ p, (callAttempt decode st cr rb body).1 = .ok p →
      (callAttempt decode st cr rb body).2.1.connection.isSome = true)
    ∧ (∀ e, (callAttempt decode st cr rb body).1 = .error e →
      (callAttempt decode st cr rb body).2.1.connection = none) := by
  unfold callAttempt
  cases st.connection <;> cases cr <;> by_cases hrb : rb = [] <;>
    (constructor <;> intro x hx <;> simp [hrb] at hx ⊢)

theorem callLatexmls_conn (decode : List Nat → Option LatexmlResponse) (st : ServerState)
    (env : CallEnv) (body : String) (retry : Bool) :
    (∀ p, (callLatexmls decode st env body retry).1 = .ok p →
      (callLatexmls decode st env body retry).2.1.connection.isSome = true)
    ∧ (∀ e, (callLatexmls decode st env body retry).1 = .error e →
      (callLatexmls decode st env body retry).2.1.connection = none) := by
  unfold callLatexmls
  rcases h1 : callAttempt decode st env.connectRes env.resp body with ⟨r1, st1, e1⟩
  have hA := callAttempt_conn decode st env.connectRes env.resp body
  rw [h1] at hA
  cases r1 with
  | ok p =>
    exact ⟨fun q hq => hA.1 p rfl, fun e he => absurd he (by simp)⟩
  | error err =>
    cases err with
    | connectFailed =>
      exact ⟨fun q hq => absurd hq (by simp), fun e he => hA.2 .connectFailed rfl⟩
    | emptyResponse =>
      cases retry with
      | false =>
        exact ⟨fun q hq => absurd hq (by simp), fun e he => hA.2 .emptyResponse rfl⟩
      | true =>
        rcases h2 : callAttempt decode st1 env.connectRes2 env.resp2 body with ⟨r2, st2, e2⟩
        have hB := callAttempt_conn decode st1 env.connectRes2 env.resp2 body
        rw [h2] at hB
        simp only [h2]
        exact ⟨fun q hq => hB.1 q hq, fun e he => hB.2 e he⟩

theorem ensureServer_error_conn (decode : List Nat → Option LatexmlResponse)
    (initBody : String) (st : ServerState) (env : EnsureEnv) :
    ∀ e st' tr, ensureServer decode initBody st env = (.error e, st', tr) →
      st'.connection = none := by
  intro e st' tr h
  cases hopen : env.portOpen with
  | true =>
    rw [ensureServer_open decode initBody st env hopen] at h
    have hC := callLatexmls_conn decode (spawnedState st env) env.initEnv initBody true
    rcases hc : callLatexmls decode (spawnedState st env) env.initEnv initBody true
      with ⟨r, st5, ev1⟩
    rw [hc] at h hC
    cases r with
    | ok p => simp at h
    | error e2 =>
      simp only [Prod.mk.injEq] at h
      rw [← h.2.1]
      exact hC.2 e2 rfl
  | false =>
    unfold ensureServer at h
    rw [hopen] at h
    simp at h

/-- C7 (amended): the Worker's TCP stream is retained after every call of
`Server::convert` that returns a Response Record — regardless of the
record's `status_code` (a JSON-decode failure yields the sentinel record
with `status_code = 3` on the `Ok` path and still retains the stream) —
and the stream is dropped exactly when `convert` returns a transport
error. -/
theorem connection_reuse (decode : List Nat → Option LatexmlResponse)
    (initBody body : String) (st : ServerState) (eenv : EnsureEnv) (cenv : CallEnv) :
    (∀ p st' tr, Server.convert decode initBody body st eenv cenv = (.ok p, st', tr) →
        st'.connection.isSome = true)
    ∧ (∀ e st' tr, Server.convert decode initBody body st eenv cenv = (.error e, st', tr) →
        st'.connection = none) := by
  unfold Server.convert
  rcases he : ensureServer decode initBody st eenv with ⟨re, st1, ev⟩
  cases re with
  | error e0 =>
    refine ⟨fun p st' tr hh => absurd hh (by simp), fun e st' tr hh => ?_⟩
    simp only [Prod.mk.injEq] at hh
    rw [← hh.2.1]
    exact ensureServer_error_conn decode initBody st eenv e0 st1 ev he
  | ok u =>
    have hC := callLatexmls_conn decode st1 cenv body true
    rcases hc : callLatexmls decode st1 cenv body true with ⟨r, st2, ev2⟩
    rw [hc] at hC
    cases r with
    | ok p =>
      refine ⟨fun q st' tr hh => ?_, fun e st' tr hh => ?_⟩
      · simp only at hh
        rw [hc] at hh
        simp only [Prod.mk.injEq] at hh
        rw [← hh.2.1]
        exact hC.1 p rfl
      · simp only at hh
        rw [hc] at hh
        simp at hh
    | error e2 =>
      refine ⟨fun q st' tr hh => ?_, fun e st' tr hh => ?_⟩
      · simp only at hh
        rw [hc] at hh
        simp at hh
      · simp only at hh
        rw [hc] at hh
        simp only [Prod.mk.injEq] at hh
        rw [← hh.2.1]

/-- C7 counterexample: a call whose non-empty response fails to decode
yields the sentinel record (`status_code = 3`) on the `Ok` path of
`call_latexmls`, and the Worker's stream is retained for the next call,
not dropped. -/
theorem sentinel_keeps_stream :
    (Server.convert decodeNone "i" "b" liveServer offlineEnsureEnv junkCallEnv).1
        = .ok LatexmlResponse.default
    ∧ LatexmlResponse.default.status_code = 3
    ∧ (Server.convert decodeNone "i" "b" liveServer
          offlineEnsureEnv junkCallEnv).2.1.connection = some 5 :=
  ⟨rfl, rfl, rfl⟩

/-- Witness for C7 (amended): a concrete successful call retains the
stream and a concrete failed call drops it. -/
theorem connection_reuse_witness :
    ({ baseServer with callCount := 1, connection := some 2 }
        : ServerState).connection.isSome = true
    ∧ ({ baseServer with callCount := 1, connection := none }
        : ServerState).connection = none := by
  constructor
  · exact (connection_reuse decodeEmptyOk "i" "b" baseServer offlineEnsureEnv okCallEnv).1
      LatexmlResponse.empty
      { baseServer with callCount := 1, connection := some 2 }
      [Event.callBegin 0, Event.connectTo 3334, Event.wrote (requestString 3334 "b")]
      rfl
  · exact (connection_reuse decodeNone "i" "b" baseServer offlineEnsureEnv emptyCallEnv).2
      .connectFailed
      { baseServer with callCount := 1, connection := none }
      [Event.callBegin 0, Event.connectTo 3334]
      rfl

/-- C8 counterexample: with `allow_retry = true`, a non-empty response
that fails JSON decoding does not trigger a transport retry — the call
writes exactly one request and returns the sentinel record on the `Ok`
path. -/
theorem decode_failure_no_retry :
    (callLatexmls decodeNone liveServer junkCallEnv "b" true).1
        = .ok LatexmlResponse.default
    ∧ ((callLatexmls decodeNone liveServer junkCallEnv "b" true).2.2.filter
          Event.isWrote).length = 1 :=
  ⟨rfl, rfl⟩

/-- C8 (amended): in `call_latexmls`, only the empty response triggers the
single automatic transport retry (when `allow_retry` is true) and yields
an error — not the sentinel record — when `allow_retry` is false; a
non-empty response is always decoded from the index of the first
`\r\n\r\n` onward (index 0 when the separator is missing, so the bytes
include the separator itself), a decode failure yielding the sentinel
record immediately with no retry. -/
theorem call_retry_semantics (decode : List Nat → Option LatexmlResponse)
    (st : ServerState) (env : CallEnv) (body : String) (s : Nat)
    (hconn : st.connection = some s) :
    (env.resp ≠ [] →
      callLatexmls decode st env body true
        = (.ok ((decode (env.resp.drop
              ((findSubsequence env.resp crlfcrlf).getD 0))).getD LatexmlResponse.default),
           { st with callCount := st.callCount + 1, connection := some s },
           [Event.callBegin st.callCount, Event.wrote (requestString st.port body)]))
    ∧ (env.resp = [] →
        callLatexmls decode st env body true
          = ((callAttempt decode { st with callCount := st.callCount + 1, connection := none }
                env.connectRes2 env.resp2 body).1,
             (callAttempt decode { st with callCount := st.callCount + 1, connection := none }
                env.connectRes2 env.resp2 body).2.1,
             [Event.callBegin st.callCount, Event.wrote (requestString st.port body)]
               ++ (callAttempt decode
                     { st with callCount := st.callCount + 1, connection := none }
                     env.connectRes2 env.resp2 body).2.2))
    ∧ (env.resp = [] →
        callLatexmls decode st env body false
          = (.error .emptyResponse,
             { st with callCount := st.callCount + 1, connection := none },
             [Event.callBegin st.callCount, Event.wrote (requestString st.port body)])) := by
  refine ⟨?_, ?_, ?_⟩
  · intro hne
    unfold callLatexmls callAttempt
    simp [hconn, hne]
  · intro hemp
    unfold callLatexmls
    conv in callAttempt decode st env.connectRes env.resp body =>
      rw [show callAttempt decode st env.connectRes env.resp body
        = (.error .emptyResponse,
           { st with callCount := st.callCount + 1, connection := none },
           [Event.callBegin st.callCount, Event.wrote (requestString st.port body)]) by
        unfold callAttempt
        simp [hconn, hemp]]
    rcases h2 : callAttempt decode { st with callCount := st.callCount + 1, connection := none }
        env.connectRes2 env.resp2 body with ⟨r2, st2, e2⟩
    simp [h2]
  · intro hemp
    unfold callLatexmls callAttempt
    simp [hconn, hemp]

/-- Witness for C8 (amended): the three branches at concrete calls — a
non-empty undecodable response (sentinel, no retry), and an empty
response with and without `allow_retry`. -/
theorem call_retry_semantics_witness :
    callLatexmls decodeNone liveServer junkCallEnv "b" true
        = (.ok ((decodeNone (junkCallEnv.resp.drop
              ((findSubsequence junkCallEnv.resp crlfcrlf).getD 0))).getD
                LatexmlResponse.default),
           { liveServer with callCount := liveServer.callCount + 1, connection := some 5 },
           [Event.callBegin liveServer.callCount,
            Event.wrote (requestString liveServer.port "b")])
    ∧ callLatexmls decodeNone liveServer emptyCallEnv "b" false
        = (.error .emptyResponse,
           { liveServer with callCount := liveServer.callCount + 1, connection := none },
           [Event.callBegin liveServer.callCount,
            Event.wrote (requestString liveServer.port "b")]) := by
  have h := call_retry_semantics decodeNone liveServer junkCallEnv "b" 5 rfl
  have h2 := call_retry_semantics decodeNone liveServer emptyCallEnv "b" 5 rfl
  exact ⟨h.1 (by decide), h2.2.2 rfl⟩

theorem reapCheck_fields (st : ServerState) (b : Bool) :
    (reapCheck st b).autoflush = st.autoflush
    ∧ (reapCheck st b).callCount = st.callCount := by
  unfold reapCheck
  by_cases h : st.childProc && b <;> simp [h]

/-- C9 (amended): with `autoflush = k > 0`, whenever the autoflush check
at the top of `ensure_server` runs (which happens before each `convert`'s
call), the worker's `call_count` is at most `k` immediately after the
check, and a worker whose `call_count` exceeds `k` at that point rotates
— primary and backup ports swapped, `call_count` reset to 0, child
handle released — before the call proceeds.  (`call_count` itself counts
every `call_latexmls` invocation, including `init_call` and transport
retries, which increment it with no intervening check, so a call can
still begin with `call_count > k`; only the post-check bound holds.) -/
theorem autoflush_rotation (st : ServerState) (reaped : Bool) :
    (0 < st.autoflush → (autoflushCheck st reaped).callCount ≤ st.autoflush)
    ∧ (0 < st.autoflush → st.autoflush < st.callCount →
        autoflushCheck st reaped = rotatePorts st reaped
        ∧ (rotatePorts st reaped).port = st.backupPort
        ∧ (rotatePorts st reaped).backupPort = st.port
        ∧ (rotatePorts st reaped).callCount = 0
        ∧ (rotatePorts st reaped).childProc = false)
    ∧ (0 < st.autoflush → ∀ env : EnsureEnv,
        (checkedState st env).callCount ≤ st.autoflush) := by
  have hrot : (rotatePorts st reaped).port = st.backupPort
      ∧ (rotatePorts st reaped).backupPort = st.port
      ∧ (rotatePorts st reaped).callCount = 0
      ∧ (rotatePorts st reaped).childProc = false := by
    unfold rotatePorts
    by_cases hc : st.childProc <;> by_cases hr : reaped <;> simp [hc, hr]
  have hchk : ∀ s2 : ServerState, ∀ b : Bool, 0 < s2.autoflush →
      (autoflushCheck s2 b).callCount ≤ s2.autoflush := by
    intro s2 b hpos
    unfold autoflushCheck
    by_cases h : s2.autoflush < s2.callCount
    · simp only [hpos, h, and_self, if_true]
      unfold rotatePorts
      by_cases hc : s2.childProc <;> by_cases hr : b <;> simp [hc, hr]
    · simp only [hpos, h, and_false, if_false]
      omega
  refine ⟨fun hpos => hchk st reaped hpos, ?_, ?_⟩
  · intro hpos hbr
    refine ⟨?_, hrot⟩
    unfold autoflushCheck
    simp [hpos, hbr]
  · intro hpos env
    have hf := reapCheck_fields st env.reaped
    have h1 := hchk (reapCheck st env.reaped) env.reapedAtRotate (by rw [hf.1]; exact hpos)
    rw [hf.1] at h1
    unfold checkedState
    exact h1

/-- Witness for C9 (amended) on a worker with `autoflush = 1` and
`call_count = 2`. -/
theorem autoflush_rotation_witness :
    (autoflushCheck { autoflushServer with callCount := 2 } false).callCount
        ≤ ({ autoflushServer with callCount := 2 } : ServerState).autoflush
    ∧ (rotatePorts { autoflushServer with callCount := 2 } false).port
        = ({ autoflushServer with callCount := 2 } : ServerState).backupPort
    ∧ (rotatePorts { autoflushServer with callCount := 2 } false).callCount = 0 := by
  have h := autoflush_rotation { autoflushServer with callCount := 2 } false
  exact ⟨h.1 (by decide),
    (h.2.1 (by decide) (by decide)).2.1,
    (h.2.1 (by decide) (by decide)).2.2.2.1⟩

/-- C9 counterexample: a call can begin with `call_count > autoflush`.
A worker with `autoflush = 1` and one completed call (`call_count = 1`)
whose daemon died: `ensure_server` does not rotate (1 ≤ 1), respawns, and
its `init_call` raises `call_count` to 2 with no further check, so the
job's own call begins with `call_count = 2 > 1`, and the worker has not
rotated (its primary port is unchanged). -/
theorem call_begins_above_autoflush :
    autoflushServer.autoflush = 1
    ∧ autoflushServer.callCount = 1
    ∧ (Server.convert decodeEmptyOk "i" "b" autoflushServer
          respawnEnsureEnv okCallEnv).2.2.contains (Event.callBegin 2) = true
    ∧ (Server.convert decodeEmptyOk "i" "b" autoflushServer
          respawnEnsureEnv okCallEnv).2.1.port = autoflushServer.port := by
  refine ⟨rfl, rfl, ?_, rfl⟩
  decide
